import Mathlib

/-!
Verification of the object-storage and clone core of a small JavaScript
git client.  Bytes are modelled as natural numbers (values < 256), buffers
as lists of bytes, and JavaScript strings as Lean strings (all data in the
claims is ASCII).  Machine-word arithmetic is carried out on Nat with
explicit reduction modulo 2^32 where the source relies on 32-bit words.
-/

set_option maxRecDepth 100000

/-- Reduce to an unsigned 32-bit word, as the SHA-1 arithmetic in the source
relies on values being 32-bit. -/
def w32 (x : Nat) : Nat := x % 4294967296

/-- Rotate a 32-bit word left by n bits. -/
def rotl (n x : Nat) : Nat := ((x <<< n) ||| (x >>> (32 - n))) % 4294967296

/-- Bytes of a Lean string: each character's code point.  All strings handled
by the claims are ASCII, where this coincides with the UTF-8 bytes that
Node's Buffer.from produces. -/
def strBytes (s : String) : List Nat := s.data.map Char.toNat

/-- Big-endian 8-byte encoding of a number (SHA-1 length field). -/
def be8 (n : Nat) : List Nat :=
  [n >>> 56 % 256, n >>> 48 % 256, n >>> 40 % 256, n >>> 32 % 256,
   n >>> 24 % 256, n >>> 16 % 256, n >>> 8 % 256, n % 256]

/-- SHA-1 padding: append 0x80, zero bytes up to 56 mod 64, then the
bit length as 8 bytes big-endian. -/
def sha1Pad (msg : List Nat) : List Nat :=
  msg ++ [128] ++ List.replicate ((120 - (msg.length + 1) % 64) % 64) 0 ++
    be8 (msg.length * 8)

/-- Split a byte list into 64-byte blocks (fuel-based so that the kernel
can evaluate it; the fuel argument is always sufficient). -/
def chunk64Go : Nat → List Nat → List (List Nat)
  | _, [] => []
  | 0, _ => []
  | fuel + 1, l => l.take 64 :: chunk64Go fuel (l.drop 64)

/-- Split a byte list into 64-byte blocks. -/
def chunk64 (l : List Nat) : List (List Nat) := chunk64Go l.length l

/-- The 16 big-endian 32-bit words of one 64-byte block. -/
def blockWords (b : List Nat) : List Nat :=
  (List.range 16).map fun i =>
    b.getD (4 * i) 0 * 16777216 + b.getD (4 * i + 1) 0 * 65536 +
      b.getD (4 * i + 2) 0 * 256 + b.getD (4 * i + 3) 0

/-- Extend 16 schedule words to 80 by the SHA-1 recurrence. -/
def sha1Schedule (ws : List Nat) : List Nat :=
  (List.range 64).foldl
    (fun acc _ =>
      acc ++ [rotl 1 (acc.getD (acc.length - 3) 0 ^^^ acc.getD (acc.length - 8) 0 ^^^
        acc.getD (acc.length - 14) 0 ^^^ acc.getD (acc.length - 16) 0)])
    ws

/-- Round function and constant for SHA-1 round i. -/
def sha1FK (i b c d : Nat) : Nat × Nat :=
  if i < 20 then ((b &&& c) ||| ((4294967295 ^^^ b) &&& d), 1518500249)
  else if i < 40 then (b ^^^ c ^^^ d, 1859775393)
  else if i < 60 then ((b &&& c) ||| (b &&& d) ||| (c &&& d), 2400959708)
  else (b ^^^ c ^^^ d, 3395469782)

/-- One SHA-1 round step on the (a,b,c,d,e) state. -/
def sha1Step (st : Nat × Nat × Nat × Nat × Nat) (iw : Nat × Nat) :
    Nat × Nat × Nat × Nat × Nat :=
  let (a, b, c, d, e) := st
  let (i, w) := iw
  let (f, k) := sha1FK i b c d
  (w32 (rotl 5 a + f + e + k + w), a, rotl 30 b, c, d)

/-- SHA-1 compression of one 64-byte block into the running state. -/
def sha1Compress (h : Nat × Nat × Nat × Nat × Nat) (block : List Nat) :
    Nat × Nat × Nat × Nat × Nat :=
  let ws := sha1Schedule (blockWords block)
  let (a, b, c, d, e) := ((List.range 80).zip ws).foldl sha1Step h
  (w32 (h.1 + a), w32 (h.2.1 + b), w32 (h.2.2.1 + c), w32 (h.2.2.2.1 + d),
   w32 (h.2.2.2.2 + e))

/-- The five 32-bit digest words of SHA-1 over a byte list. -/
def sha1Words (msg : List Nat) : Nat × Nat × Nat × Nat × Nat :=
  (chunk64 (sha1Pad msg)).foldl sha1Compress
    (1732584193, 4023233417, 2562383102, 271733878, 3285377520)

/-- The sixteen lowercase hex digit characters. -/
def hexChs : List Char := "0123456789abcdef".data

/-- Lowercase hex digit for a value below 16. -/
def hexCh (d : Nat) : Char := hexChs.getD d '0'

/-- Eight lowercase hex characters of one 32-bit word. -/
def w8hex (w : Nat) : List Char :=
  [hexCh (w >>> 28 &&& 15), hexCh (w >>> 24 &&& 15), hexCh (w >>> 20 &&& 15),
   hexCh (w >>> 16 &&& 15), hexCh (w >>> 12 &&& 15), hexCh (w >>> 8 &&& 15),
   hexCh (w >>> 4 &&& 15), hexCh (w &&& 15)]

/-- The 40 hex characters of a SHA-1 digest, as crypto.createHash("sha1")
....digest("hex") produces. -/
def sha1HexChars (msg : List Nat) : List Char :=
  let (a, b, c, d, e) := sha1Words msg
  w8hex a ++ w8hex b ++ w8hex c ++ w8hex d ++ w8hex e

/-- SHA-1 hex digest as a string. -/
def sha1Hex (msg : List Nat) : String := String.mk (sha1HexChars msg)

/-- Four big-endian bytes of a 32-bit word. -/
def wBytes (w : Nat) : List Nat :=
  [w >>> 24 % 256, w >>> 16 % 256, w >>> 8 % 256, w % 256]

/-- The 20 raw digest bytes of SHA-1. -/
def sha1Bytes (msg : List Nat) : List Nat :=
  let (a, b, c, d, e) := sha1Words msg
  wBytes a ++ wBytes b ++ wBytes c ++ wBytes d ++ wBytes e

/-! ## zlib model

The packfile decoder calls Node's zlib.inflateSync on incrementally
growing slices.  We model inflateSync restricted to zlib streams whose
deflate body is a single stored (uncompressed) block — every compressed
region appearing in the concrete packs below is of that form, and every
strict truncation of such a stream is rejected by real zlib exactly as by
this model.  Node's behaviour on a complete stream followed by trailing
bytes differs between versions, so two oracles are provided: an exact one
(trailing bytes are a data error) and a permissive one (trailing bytes are
ignored); the theorems that depend on inflation hold for both. -/

/-- Outcome of one inflateSync call: success, "need more input"
(Z_BUF_ERROR / unexpected end of file), or any other failure. -/
inductive InfResult where
  | ok (out : List Nat)
  | moreInput
  | badData
  deriving DecidableEq, Repr

/-- Whether an inflate outcome is a success. -/
def InfResult.isOk : InfResult → Bool
  | .ok _ => true
  | _ => false

/-- Adler-32 running pair (s1, s2) over a byte list. -/
def adler32Pair (data : List Nat) : Nat × Nat :=
  data.foldl (fun st x => ((st.1 + x) % 65521, (st.2 + st.1 + x) % 65521)) (1, 0)

/-- The four big-endian Adler-32 checksum bytes that terminate a zlib
stream. -/
def adlerBytes (data : List Nat) : List Nat :=
  [(adler32Pair data).2 >>> 8, (adler32Pair data).2 % 256,
   (adler32Pair data).1 >>> 8, (adler32Pair data).1 % 256]

/-- Declared stored-block payload length of a zlib stream: the LEN field of
the single stored deflate block, little-endian in bytes 3 and 4. -/
def zlibLEN (l : List Nat) : Nat := l.getD 3 0 + 256 * l.getD 4 0

/-- zlib.inflateSync on a byte list, exact-length semantics: succeeds only
when the input is exactly one complete, checksummed zlib stream whose
deflate body is a single stored block. -/
def inflateStored (l : List Nat) : InfResult :=
  if l.length < 2 then .moreInput
  else if ¬ (l.getD 0 0 &&& 15 = 8 ∧ (l.getD 0 0 * 256 + l.getD 1 0) % 31 = 0 ∧
             l.getD 1 0 &&& 32 = 0) then .badData
  else if l.length < 3 then .moreInput
  else if ¬ (l.getD 2 0 &&& 7 = 1) then .badData
  else if l.length < 7 then .moreInput
  else if ¬ (l.getD 5 0 = 255 - l.getD 3 0 ∧ l.getD 6 0 = 255 - l.getD 4 0) then .badData
  else if l.length < 11 + zlibLEN l then .moreInput
  else if l.length > 11 + zlibLEN l then .badData
  else if ¬ (l.drop (7 + zlibLEN l) = adlerBytes ((l.drop 7).take (zlibLEN l))) then .badData
  else .ok ((l.drop 7).take (zlibLEN l))

/-- zlib.inflateSync, permissive semantics: like inflateStored but bytes
after the end of the complete stream are ignored. -/
def inflateStoredP (l : List Nat) : InfResult :=
  if l.length < 2 then .moreInput
  else if ¬ (l.getD 0 0 &&& 15 = 8 ∧ (l.getD 0 0 * 256 + l.getD 1 0) % 31 = 0 ∧
             l.getD 1 0 &&& 32 = 0) then .badData
  else if l.length < 3 then .moreInput
  else if ¬ (l.getD 2 0 &&& 7 = 1) then .badData
  else if l.length < 7 then .moreInput
  else if ¬ (l.getD 5 0 = 255 - l.getD 3 0 ∧ l.getD 6 0 = 255 - l.getD 4 0) then .badData
  else if l.length < 11 + zlibLEN l then .moreInput
  else if ¬ (((l.drop (7 + zlibLEN l)).take 4) = adlerBytes ((l.drop 7).take (zlibLEN l))) then
    .badData
  else .ok ((l.drop 7).take (zlibLEN l))

/-- A buffer that consists of exactly one well-formed zlib stream with no
bytes following it (within the stored-block fragment of zlib). -/
def isCompleteZlibStored (l : List Nat) : Bool := (inflateStored l).isOk

/-! ## JavaScript primitives used by the source -/

/-- JS template interpolation of a possibly-undefined string. -/
def jsShowOpt : Option String → String
  | none => "undefined"
  | some s => s

/-- JS whitespace bytes skipped by parseInt. -/
def isWsByte (b : Nat) : Bool :=
  b == 32 || b == 9 || b == 10 || b == 13 || b == 12 || b == 11

/-- Hex digit value of an ASCII byte. -/
def hexVal? (b : Nat) : Option Nat :=
  if 48 ≤ b ∧ b ≤ 57 then some (b - 48)
  else if 97 ≤ b ∧ b ≤ 102 then some (b - 87)
  else if 65 ≤ b ∧ b ≤ 70 then some (b - 55)
  else none

/-- JS parseInt(str, 16) over the ASCII bytes of str, for non-negative
results: skip leading whitespace, strip an optional 0x prefix, then read
the longest run of leading hex digits; none models NaN.  (A leading minus
sign, which JS would negate, is out of the modelled fragment and is not
reachable in any verified scenario.) -/
def jsParseIntHex (bs : List Nat) : Option Nat :=
  let bs1 := bs.dropWhile isWsByte
  let bs2 := match bs1 with
    | a :: b :: t => if a = 48 ∧ (b = 120 ∨ b = 88) then t else a :: b :: t
    | x => x
  let ds := bs2.takeWhile (fun b => (hexVal? b).isSome)
  if ds = [] then none
  else some (ds.foldl (fun a b => a * 16 + (hexVal? b).getD 0) 0)

/-- ASCII code of a lowercase hex digit. -/
def hexByte (d : Nat) : Nat := (hexCh d).toNat

/-- The four ASCII bytes of the %04x rendering of a pkt-line length. -/
def hex4 (n : Nat) : List Nat :=
  [hexByte (n / 4096 % 16), hexByte (n / 256 % 16), hexByte (n / 16 % 16), hexByte (n % 16)]

/-- Digits of n base 16, most significant first (JS Number.toString(16)). -/
def natHexGo : Nat → Nat → List Char
  | 0, _ => []
  | fuel + 1, n => if n < 16 then [hexCh n] else natHexGo fuel (n / 16) ++ [hexCh (n % 16)]

/-- JS (n).toString(16) for a natural number. -/
def jsToStringHex (n : Nat) : String := String.mk (natHexGo (n + 1) n)

/-- JS String.prototype.padStart(width, c). -/
def jsPadStart (s : String) (width : Nat) (c : Char) : String :=
  if width ≤ s.length then s
  else String.mk (List.replicate (width - s.length) c ++ s.data)

/-- Node Buffer.readUInt32BE. -/
def readUInt32BE (b : List Nat) (i : Nat) : Nat :=
  b.getD i 0 * 16777216 + b.getD (i + 1) 0 * 65536 + b.getD (i + 2) 0 * 256 +
    b.getD (i + 3) 0

/-- Node Buffer.indexOf of a byte pattern (none models -1). -/
def bufIndexOfGo (pat : List Nat) : List Nat → Nat → Option Nat
  | [], i => if pat.isPrefixOf [] then some i else none
  | x :: t, i => if pat.isPrefixOf (x :: t) then some i else bufIndexOfGo pat t (i + 1)

/-- Node Buffer.indexOf of a byte pattern. -/
def bufIndexOf (pat l : List Nat) : Option Nat := bufIndexOfGo pat l 0

/-- JS object property assignment obj[k] = v on a map kept as an
insertion-ordered association list. -/
def upsert : List (String × List Nat) → String → List Nat → List (String × List Nat)
  | [], k, v => [(k, v)]
  | (k', v') :: t, k, v => if k' = k then (k, v) :: t else (k', v') :: upsert t k v

/-! ## The probing inflate loops of the source -/

/-- Loop body shared by the probing inflaters: try inflating ever longer
strict slices, from index i while i < slice.length.  The clone.js
readAndInflate catches every error and keeps probing. -/
def readAndInflateGo (inf : List Nat → InfResult) (slice : List Nat) :
    Nat → Nat → Option (List Nat × Nat)
  | 0, _ => none
  | fuel + 1, i =>
    if i < slice.length then
      match inf (slice.take i) with
      | .ok out => some (out, i)
      | _ => readAndInflateGo inf slice fuel (i + 1)
    else none

/-- CloneCommand.readAndInflate (clone.js): probe slice.slice(0, i) for
i = 1 .. slice.length - 1; none models the thrown
"Failed to inflate object". -/
def readAndInflate (inf : List Nat → InfResult) (slice : List Nat) :
    Option (List Nat × Nat) :=
  readAndInflateGo inf slice slice.length 1

/-- Probing loop of CloneCommand.readInflatedObject (part_002): starts at
i = 30 and rethrows any error that is not "need more input". -/
def readInflatedObjectGo (inf : List Nat → InfResult) (slice : List Nat) :
    Nat → Nat → Option (List Nat × Nat)
  | 0, _ => none
  | fuel + 1, i =>
    if i < slice.length then
      match inf (slice.take i) with
      | .ok out => some (out, i)
      | .moreInput => readInflatedObjectGo inf slice fuel (i + 1)
      | .badData => none
    else none

/-- CloneCommand.readInflatedObject (part_002); none models a throw
(either the rethrown zlib error or "Inflate failed"). -/
def readInflatedObject (inf : List Nat → InfResult) (slice : List Nat) :
    Option (List Nat × Nat) :=
  readInflatedObjectGo inf slice slice.length 30

/-! ## hash-object (src/app/git/commands/hash-object.js) -/

namespace HashObject

/-- HashObjectCommand.execute: the string written to stdout for a file with
the given contents — the SHA-1 hex digest of
Buffer.concat([Buffer.from("blob <len>\x00"), contents]), written with
process.stdout.write (no trailing newline is appended). -/
def execute (contents : List Nat) : String :=
  sha1Hex (strBytes ("blob " ++ toString contents.length ++ "\x00") ++ contents)

/-- The directory components (relative to the working directory) that the
-w branch of HashObjectCommand.execute joins for the loose-object folder:
path.join(cwd, ".git", "object", hash.slice(0, 2)). -/
def objectWriteDir (hash : String) : List String :=
  [".git", "object", hash.take 2]

/-- The file name written inside that folder: hash.slice(2). -/
def objectWriteFile (hash : String) : String := hash.drop 2

end HashObject

/-- Canonical blob encoding as the spec words it:
"blob " ++ decimal(len(b)) ++ NUL ++ b. -/
def canonicalBlob (b : List Nat) : List Nat :=
  strBytes "blob " ++ strBytes (toString b.length) ++ [0] ++ b

/-- The loose-object directory components the spec requires:
.git/objects/<sha[0..2]>. -/
def specLooseDir (sha : String) : List String :=
  [".git", "objects", sha.take 2]

/-- Character predicate: a lowercase hex digit. -/
def isHexLowerChar (c : Char) : Bool := hexChs.contains c

/-! ## write-tree (src/unnamed/part_003) -/

namespace WriteTree

/-- One entry of the result array assembled by recursiveCreateTree, in the
order the directory traversal produced it; sha holds the 20 raw bytes that
Buffer.from(sha, "hex") yields. -/
structure TreeEntry where
  mode : String
  name : String
  sha : List Nat
  deriving DecidableEq, Repr

/-- Bytes contributed by one entry:
Buffer.from("<mode> <basename>\x00") ++ sha bytes. -/
def entryBytes (e : TreeEntry) : List Nat :=
  strBytes (e.mode ++ " " ++ e.name ++ "\x00") ++ e.sha

/-- The treeData reduce of recursiveCreateTree: entries are concatenated in
traversal order, no sorting is applied anywhere. -/
def treeData (entries : List TreeEntry) : List Nat :=
  entries.foldl (fun acc e => acc ++ entryBytes e) []

/-- The full tree object: Buffer.from("tree <len>\x00") ++ treeData. -/
def treeObject (entries : List TreeEntry) : List Nat :=
  strBytes ("tree " ++ toString (treeData entries).length ++ "\x00") ++ treeData entries

end WriteTree

/-- The effective name the spec sorts by: the entry name with a trailing
slash appended when the entry is a directory (mode 40000); the slash is
used during comparison only. -/
def effectiveName (e : WriteTree.TreeEntry) : List Nat :=
  strBytes e.name ++ (if e.mode = "40000" then [47] else [])

/-- Byte-order (lexicographic) strict comparison of byte lists. -/
def bytesLt : List Nat → List Nat → Bool
  | [], [] => false
  | [], _ :: _ => true
  | _ :: _, [] => false
  | a :: x, b :: y => if a < b then true else if b < a then false else bytesLt x y

/-- Insertion into a list sorted by effective name. -/
def insertByEffName (e : WriteTree.TreeEntry) :
    List WriteTree.TreeEntry → List WriteTree.TreeEntry
  | [] => [e]
  | x :: t =>
    if bytesLt (effectiveName e) (effectiveName x) then e :: x :: t
    else x :: insertByEffName e t

/-- The entry order the spec requires: sorted by effective name in byte
order. -/
def specSortEntries (entries : List WriteTree.TreeEntry) : List WriteTree.TreeEntry :=
  entries.foldr insertByEffName []

/-! ## commit-tree (src/unnamed/part_001, CommitTreeCommand) -/

namespace CommitTree

/-- One author/committer line of CommitTreeCommand.execute; the timestamp
argument is the value Date.now() returned at that interpolation site. -/
def identLine (role : String) (t : Nat) : String :=
  role ++ " Priyanshu Naik <priyanshunaik@Priyanshus-MacBook-Air.local> " ++
    toString t ++ " +0000\n"

/-- commitContentBuffer of CommitTreeCommand.execute.  The parent line is
emitted unconditionally; with no parent the interpolation renders
"undefined".  t1 and t2 are the two Date.now() results. -/
def commitContent (tree : String) (parent : Option String) (message : String)
    (t1 t2 : Nat) : String :=
  "tree " ++ tree ++ "\n" ++
  "parent " ++ jsShowOpt parent ++ "\n" ++
  identLine "author" t1 ++
  identLine "committer" t2 ++ "\n" ++
  message ++ "\n"

/-- The full commit encoding that is hashed and stored:
"commit <byte-length>\x00" ++ content (the content is ASCII, so its string
length equals its byte length). -/
def commitEncoding (tree : String) (parent : Option String) (message : String)
    (t1 t2 : Nat) : String :=
  "commit " ++ toString (commitContent tree parent message t1 t2).length ++ "\x00" ++
    commitContent tree parent message t1 t2

/-- The SHA the command prints. -/
def printedSha (tree : String) (parent : Option String) (message : String)
    (t1 t2 : Nat) : String :=
  sha1Hex (strBytes (commitEncoding tree parent message t1 t2))

end CommitTree

/-! ## clone.js, first variant (src/app/git/commands/clone.js lines 7-195) -/

/-- The shared per-object pack header varint loop: JS
while (c & 0x80) grows size by 7 bits per continuation byte; out-of-range
reads yield undefined, which the bitwise operators coerce to 0.  The
32-bit wrap of the JS shift/or is modelled by reducing mod 2^32 (the sign
of the JS ToInt32 result is irrelevant: size is never used downstream). -/
def packHeaderGo (buf : List Nat) (offset : Nat) :
    Nat → Nat → Nat → Nat → Nat → Nat × Nat
  | 0, _, size, _, hs => (size, hs)
  | fuel + 1, c, size, shift, hs =>
    if c &&& 128 ≠ 0 then
      let c2 := buf.getD (offset + hs) 0
      packHeaderGo buf offset fuel c2
        ((size ||| (((c2 &&& 127) <<< (shift % 32)) % 4294967296)) % 4294967296)
        (shift + 7) (hs + 1)
    else (size, hs)

/-- decodePackHeader, shared numeric part: (type code, size, headerSize). -/
def decodePackHeaderRaw (buf : List Nat) (offset : Nat) : Nat × Nat × Nat :=
  let c := buf.getD offset 0
  let st := packHeaderGo buf offset (buf.length + 1) c (c &&& 15) 4 1
  ((c >>> 4) &&& 7, st.1, st.2)

namespace Clone1

/-- The types map of decodePackHeader in clone.js: only 1..3 are present;
any other code yields undefined. -/
def typesMap (t : Nat) : Option String :=
  if t = 1 then some "commit" else if t = 2 then some "tree"
  else if t = 3 then some "blob" else none

/-- decodePackHeader of the first clone.js variant. -/
def decodePackHeader (buf : List Nat) (offset : Nat) : Option String × Nat × Nat :=
  let r := decodePackHeaderRaw buf offset
  (typesMap r.1, r.2.1, r.2.2)

/-- The object loop of unpackPack: exactly count iterations; a throw
anywhere (out-of-bounds offset, failed inflate) aborts the command, which
none models.  Objects are keyed by the SHA-1 of the canonical encoding
built from the (possibly undefined) type name. -/
def unpackPackGo (inf : List Nat → InfResult) (pack : List Nat) :
    Nat → Nat → List (String × List Nat) → Option (List (String × List Nat))
  | 0, _, objects => some objects
  | remaining + 1, offset, objects =>
    if offset ≥ pack.length then none
    else
      let h := decodePackHeader pack offset
      let afterHeader := offset + h.2.2
      match readAndInflate inf (pack.drop afterHeader) with
      | none => none
      | some (object, consumed) =>
        let fullObject :=
          strBytes (jsShowOpt h.1 ++ " " ++ toString object.length ++ "\x00") ++ object
        unpackPackGo inf pack remaining (afterHeader + consumed)
          (upsert objects (sha1Hex fullObject) fullObject)

/-- unpackPack of the first clone.js variant.  It locates "PACK", reads the
object count, decodes exactly that many objects and returns them; the 20
trailer bytes are never read or compared against anything. -/
def unpackPack (inf : List Nat → InfResult) (buffer : List Nat) :
    Option (List (String × List Nat)) :=
  match bufIndexOf (strBytes "PACK") buffer with
  | none => none
  | some packStart =>
    let packBuffer := buffer.drop packStart
    if packBuffer.length < 12 then none
    else unpackPackGo inf packBuffer (readUInt32BE packBuffer 8) 12 []

/-- The pkt helper of buildUploadPackRequest (clone.js lines 80-85). -/
def pkt (s : String) : String :=
  if s.length ≠ 0 then jsPadStart (jsToStringHex (s.length + 4)) 4 '0' ++ s
  else "0000"

/-- buildUploadPackRequest of clone.js: note that both payloads already
carry hand-written pkt-line prefixes ("0032…" and "0000" "0009…") before
pkt wraps them in a second length prefix. -/
def buildUploadPackRequest (sha : String) : String :=
  pkt ("0032want " ++ sha ++
      " multi_ack_detailed side-band-64k thin-pack ofs-delta agent=git/1.0\n") ++
  pkt "00000009done\n"

end Clone1

/-- The pkt-line encoder as the spec defines it: emit
sprintf("%04x", len(payload)+4) ++ payload, and 0000 for empty input. -/
def specPktLine (payload : String) : String :=
  if payload.length = 0 then "0000"
  else String.mk ((hex4 (payload.length + 4)).map Char.ofNat) ++ payload

/-- The upload-pack request body the claim describes: one singly-prefixed
want frame, the flush sentinel, then the 0009done frame. -/
def specUploadPackBody (sha caps : String) : String :=
  specPktLine ("want " ++ sha ++ " " ++ caps ++ "\n") ++ "0000" ++ "0009done\n"


/-! ## clone, part_002 variant (src/unnamed/part_002) -/

namespace CloneP2

/-- The typeMap of decodePackHeader in part_002 with its || "unknown"
fallback: reserved codes 0 and 5 (and any other unlisted code) are mapped
to the string "unknown" rather than rejected. -/
def typeMap (t : Nat) : String :=
  if t = 1 then "commit" else if t = 2 then "tree" else if t = 3 then "blob"
  else if t = 4 then "tag" else if t = 6 then "ref-delta"
  else if t = 7 then "ofs-delta" else "unknown"

/-- decodePackHeader of part_002. -/
def decodePackHeader (buf : List Nat) (offset : Nat) : String × Nat × Nat :=
  let r := decodePackHeaderRaw buf offset
  (typeMap r.1, r.2.1, r.2.2)

/-- The delta dispatch test of the unpackPackfile loop (line 171). -/
def isDeltaType (t : String) : Bool := t == "ref-delta" || t == "ofs-delta"

/-- findZlibAtPosition: scan up to 20 positions from startPos for the two
zlib magic bytes; none models the -1 return. -/
def findZlibAtPosition (buffer : List Nat) (startPos : Nat) : Option Nat :=
  (((List.range 20).filter fun i => startPos + i + 1 < buffer.length).find? fun i =>
      buffer.getD (startPos + i) 0 == 120 &&
        (buffer.getD (startPos + i + 1) 0 == 156 || buffer.getD (startPos + i + 1) 0 == 1 ||
         buffer.getD (startPos + i + 1) 0 == 218 || buffer.getD (startPos + i + 1) 0 == 94)).map
    (startPos + ·)

/-- The ofs-delta negative-offset varint skip:
while (pack[offset] & 0x80) offset++; offset++. -/
def skipVarintGo (pack : List Nat) : Nat → Nat → Nat
  | 0, offset => offset + 1
  | fuel + 1, offset =>
    if pack.getD offset 0 &&& 128 ≠ 0 then skipVarintGo pack fuel (offset + 1)
    else offset + 1

/-- The "find the next object header" search run after skipping a delta:
the first position p in [offset, pack.length - 10) whose decoded header has
a non-delta concrete type and is followed by zlib magic within 20 bytes. -/
def findNextObject (pack : List Nat) (offset : Nat) : Option Nat :=
  (List.range' offset (pack.length - 10 - offset)).find? fun p =>
    let h := decodePackHeader pack p
    (h.1 == "commit" || h.1 == "tree" || h.1 == "blob" || h.1 == "tag") &&
      (findZlibAtPosition pack (p + h.2.2)).isSome

/-- The object loop of unpackPackfile (part_002).  Delta objects are
explicitly skipped (their payload is never inflated and no delta is ever
applied); a failed inflate of a regular object is caught, logged and
skipped.  No step of the loop can throw, so the outer catch-and-break is
unreachable. -/
def unpackPackfileGo (inf : List Nat → InfResult) (pack : List Nat) :
    Nat → Nat → List (String × List Nat) → List (String × List Nat)
  | 0, _, objects => objects
  | remaining + 1, offset, objects =>
    let h := decodePackHeader pack offset
    let afterHeader := offset + h.2.2
    if isDeltaType h.1 then
      let afterBase :=
        if h.1 == "ref-delta" then afterHeader + 20
        else skipVarintGo pack (pack.length + 1) afterHeader
      match findNextObject pack afterBase with
      | some p => unpackPackfileGo inf pack remaining p objects
      | none => objects
    else
      match findZlibAtPosition pack afterHeader with
      | none => unpackPackfileGo inf pack remaining afterHeader objects
      | some z =>
        match readInflatedObject inf (pack.drop z) with
        | none => unpackPackfileGo inf pack remaining z objects
        | some (object, consumed) =>
          let fullObject :=
            strBytes (h.1 ++ " " ++ toString object.length ++ "\x00") ++ object
          unpackPackfileGo inf pack remaining (z + consumed)
            (upsert objects (sha1Hex fullObject) fullObject)

/-- unpackPackfile of part_002; none models the PACK-not-found and
too-small throws.  As in clone.js, the 20-byte trailer is never verified. -/
def unpackPackfile (inf : List Nat → InfResult) (buffer : List Nat) :
    Option (List (String × List Nat)) :=
  match bufIndexOf (strBytes "PACK") buffer with
  | none => none
  | some s =>
    let pack := buffer.drop s
    if pack.length < 12 then none
    else some (unpackPackfileGo inf pack (readUInt32BE pack 8) 12 [])

/-- extractPackData (part_002 lines 130-147), the side-band demultiplexer:
read a 4-hex length, stop on 0000 or on an unparsable length, keep the
payload when the band byte is 1, silently drop every other band (2 and 3
included), and advance by the declared length.  A NaN length parse pushes
at most an empty chunk before the loop exits, so it contributes nothing. -/
def extractPackDataGo : Nat → List Nat → List Nat
  | 0, _ => []
  | fuel + 1, buf =>
    if 4 ≤ buf.length then
      match jsParseIntHex (buf.take 4) with
      | none => []
      | some 0 => []
      | some (n + 1) =>
        (if buf.getD 4 0 = 1 then (buf.take (n + 1)).drop 5 else []) ++
          extractPackDataGo fuel (buf.drop (n + 1))
    else []

/-- CloneCommand.extractPackData of part_002. -/
def extractPackData (buf : List Nat) : List Nat :=
  extractPackDataGo (buf.length + 1) buf

end CloneP2

/-- One frame of a side-band-64k response: a band byte and its payload. -/
structure SBFrame where
  band : Nat
  data : List Nat
  deriving DecidableEq, Repr

/-- Wire encoding of one side-band frame: 4-hex length (payload + 4, the
payload being band byte plus data), band byte, data. -/
def sbFrameBytes (f : SBFrame) : List Nat :=
  hex4 (f.data.length + 5) ++ f.band :: f.data

/-- Wire encoding of a full side-band stream: the frames then the 0000
flush sentinel. -/
def sideBandEncode (fs : List SBFrame) : List Nat :=
  fs.foldr (fun f acc => sbFrameBytes f ++ acc) [48, 48, 48, 48]

/-- The concatenation of the band-1 payloads of a stream, in order. -/
def band1Concat (fs : List SBFrame) : List Nat :=
  fs.foldr (fun f acc => (if f.band = 1 then f.data else []) ++ acc) []


/-! ## Concrete fixtures -/

/-- The zlib stream (stored block) of the 8 bytes "abcdefgh". -/
def streamABC : List Nat :=
  [120, 1, 1, 8, 0, 247, 255, 97, 98, 99, 100, 101, 102, 103, 104, 14, 0, 3, 37]

/-- A one-object pack (blob "abcdefgh") whose 20 trailer bytes are zeros,
which is not the SHA-1 of the preceding bytes. -/
def c8PackBody : List Nat :=
  [80, 65, 67, 75, 0, 0, 0, 2, 0, 0, 0, 1, 56] ++ streamABC

def c8Pack : List Nat := c8PackBody ++ List.replicate 20 0

/-- One-object packs whose object header carries reserved type code 5
(byte 0x58) and 0 (byte 0x08). -/
def c7Pack5 : List Nat :=
  [80, 65, 67, 75, 0, 0, 0, 2, 0, 0, 0, 1, 88] ++ streamABC ++ List.replicate 20 0

def c7Pack0 : List Nat :=
  [80, 65, 67, 75, 0, 0, 0, 2, 0, 0, 0, 1, 8] ++ streamABC ++ List.replicate 20 0

/-- The spec's synthetic ofs-delta pack: base blob "abcdefgh" at offset 12,
then an ofs-delta (copy 0..8, insert "xyz") whose delta payload is the 8
bytes [8, 11, 0x90, 8, 3, x, y, z], stored-deflated; correct SHA-1
trailer. -/
def c9Pack : List Nat :=
  [80, 65, 67, 75, 0, 0, 0, 2, 0, 0, 0, 2, 56] ++ streamABC ++ [104, 20] ++
  [120, 1, 1, 8, 0, 247, 255, 8, 11, 144, 8, 3, 120, 121, 122, 6, 253, 2, 26] ++
  [55, 225, 172, 187, 116, 157, 123, 100, 209, 231, 71, 253, 45, 98, 180, 38, 73, 173, 181, 53]


/-! ## Supporting lemmas -/

theorem hexCh_mem_hexChs (d : Nat) (h : d ≤ 15) : isHexLowerChar (hexCh d) = true := by
  interval_cases d <;> decide

theorem w8hex_all_hex (w : Nat) : (w8hex w).all isHexLowerChar = true := by
  simp only [w8hex, List.all_cons, List.all_nil, Bool.and_eq_true]
  refine ⟨?_, ?_, ?_, ?_, ?_, ?_, ?_, ?_, trivial⟩ <;>
    exact hexCh_mem_hexChs _ (Nat.and_le_right)

theorem sha1Hex_length (m : List Nat) : (sha1Hex m).length = 40 := by
  unfold sha1Hex sha1HexChars
  generalize sha1Words m = t
  obtain ⟨a, b, c, d, e⟩ := t
  simp [String.length, w8hex]

theorem sha1Hex_all_hex (m : List Nat) : (sha1Hex m).data.all isHexLowerChar = true := by
  unfold sha1Hex sha1HexChars
  generalize sha1Words m = t
  obtain ⟨a, b, c, d, e⟩ := t
  simp only [List.all_append, Bool.and_eq_true]
  exact ⟨⟨⟨⟨w8hex_all_hex _, w8hex_all_hex _⟩, w8hex_all_hex _⟩, w8hex_all_hex _⟩,
    w8hex_all_hex _⟩

theorem hex_char_ne_lf {x : Char} (h : isHexLowerChar x = true) : ('\n' == x) = false := by
  cases hq : ('\n' == x) with
  | false => rfl
  | true =>
    exfalso
    have hx : x = '\n' := (eq_of_beq hq).symm
    rw [hx] at h
    exact absurd h (by decide)

theorem all_hex_no_lf (l : List Char) (h : l.all isHexLowerChar = true) :
    l.contains '\n' = false := by
  induction l with
  | nil => rfl
  | cons x t ih =>
    simp only [List.all_cons, Bool.and_eq_true] at h
    have hx := hex_char_ne_lf h.1
    have ht := ih h.2
    simp [List.contains]
    constructor
    · simpa using hx
    · simpa using ht

theorem sha1Hex_no_lf (m : List Nat) : (sha1Hex m).data.contains '\n' = false :=
  all_hex_no_lf _ (sha1Hex_all_hex m)

theorem execute_eq_canonical (b : List Nat) :
    HashObject.execute b = sha1Hex (canonicalBlob b) := by
  unfold HashObject.execute canonicalBlob
  congr 1
  simp only [strBytes, String.data_append, List.map_append, List.append_assoc]
  rfl

/-! ## C1 -/

/-- C1: hash-object computes the SHA-1 of the canonical blob encoding
"blob " ++ decimal(len(b)) ++ NUL ++ b and prints exactly that
40-character lowercase hex digest with no trailing newline; on the 5-byte
contents "hello" it prints b6fc4c620b67d95f953a5c1c1230aaab5db5a1b0. -/
theorem c1_hash_object_blob_sha (b : List Nat) :
    HashObject.execute b = sha1Hex (canonicalBlob b) ∧
    (HashObject.execute b).length = 40 ∧
    (HashObject.execute b).data.all isHexLowerChar = true ∧
    (HashObject.execute b).data.contains '\n' = false ∧
    HashObject.execute (strBytes "hello") =
      "b6fc4c620b67d95f953a5c1c1230aaab5db5a1b0" := by
  have he : HashObject.execute b =
      sha1Hex (strBytes ("blob " ++ toString b.length ++ "\x00") ++ b) := rfl
  refine ⟨execute_eq_canonical b, ?_, ?_, ?_, by decide⟩
  · rw [he]; exact sha1Hex_length _
  · rw [he]; exact sha1Hex_all_hex _
  · rw [he]; exact sha1Hex_no_lf _

/-- C1 witness: the theorem instantiated at the concrete contents
"hello". -/
theorem c1_hash_object_blob_sha_witness :
    HashObject.execute (strBytes "hello") =
      sha1Hex (canonicalBlob (strBytes "hello")) ∧
    (HashObject.execute (strBytes "hello")).length = 40 ∧
    (HashObject.execute (strBytes "hello")).data.all isHexLowerChar = true ∧
    (HashObject.execute (strBytes "hello")).data.contains '\n' = false ∧
    HashObject.execute (strBytes "hello") =
      "b6fc4c620b67d95f953a5c1c1230aaab5db5a1b0" :=
  c1_hash_object_blob_sha (strBytes "hello")

/-! ## C2 -/

/-- C2: refuted on the code — hash-object -w joins the loose-object
directory as .git/object/<sha[0..2]> (singular "object"), not the
.git/objects fan-out the claim states; shown at the "hello" failing
input. -/
theorem c2_loose_object_dir_bug :
    HashObject.execute (strBytes "hello") =
      "b6fc4c620b67d95f953a5c1c1230aaab5db5a1b0" ∧
    HashObject.objectWriteDir "b6fc4c620b67d95f953a5c1c1230aaab5db5a1b0" =
      [".git", "object", "b6"] ∧
    HashObject.objectWriteFile "b6fc4c620b67d95f953a5c1c1230aaab5db5a1b0" =
      "fc4c620b67d95f953a5c1c1230aaab5db5a1b0" ∧
    specLooseDir "b6fc4c620b67d95f953a5c1c1230aaab5db5a1b0" =
      [".git", "objects", "b6"] ∧
    (HashObject.objectWriteDir "b6fc4c620b67d95f953a5c1c1230aaab5db5a1b0" ==
      specLooseDir "b6fc4c620b67d95f953a5c1c1230aaab5db5a1b0") = false := by
  decide

/-! ## C3 -/

/-- Traversal order produced by a directory whose enumeration lists "b"
before "a". -/
def c3EntryB : WriteTree.TreeEntry := ⟨"100644", "b", List.replicate 20 170⟩

def c3EntryA : WriteTree.TreeEntry := ⟨"100644", "a", List.replicate 20 187⟩

/-- C3: refuted on the code — recursiveCreateTree concatenates tree
entries in traversal order with no sorting (and no trailing-slash
comparison), so a traversal that yields "b" before "a" is encoded in that
unsorted order, unlike the required canonical sort. -/
theorem c3_write_tree_unsorted_bug :
    specSortEntries [c3EntryB, c3EntryA] = [c3EntryA, c3EntryB] ∧
    WriteTree.treeData [c3EntryB, c3EntryA] =
      WriteTree.entryBytes c3EntryB ++ WriteTree.entryBytes c3EntryA ∧
    (WriteTree.treeObject [c3EntryB, c3EntryA] ==
      WriteTree.treeObject (specSortEntries [c3EntryB, c3EntryA])) = false := by
  decide

/-! ## C4 -/

/-- A fixed tree SHA for the commit-tree scenario. -/
def c4Tree : String := "4b825dc642cb6eb9a060e54bf8d69288fbee4904"


/-! ## C5 -/

/-- C5: refuted on the code — buildUploadPackRequest pkt-wraps payloads
that already carry hand-written length prefixes, so the body nests a
second prefix inside each frame ("0079" around "0032want …", "0011"
around "0000"++"0009done") and differs from the single-prefix body the
claim describes. -/
theorem c5_upload_pack_double_prefix_bug :
    Clone1.buildUploadPackRequest "aaaaaaaaaaaaaaaaaaaaaaaaaaaaaaaaaaaaaaaa" =
      "00790032want aaaaaaaaaaaaaaaaaaaaaaaaaaaaaaaaaaaaaaaa multi_ack_detailed side-band-64k thin-pack ofs-delta agent=git/1.0\n001100000009done\n" ∧
    specUploadPackBody "aaaaaaaaaaaaaaaaaaaaaaaaaaaaaaaaaaaaaaaa"
        "multi_ack_detailed side-band-64k thin-pack ofs-delta agent=git/1.0" =
      "0075want aaaaaaaaaaaaaaaaaaaaaaaaaaaaaaaaaaaaaaaa multi_ack_detailed side-band-64k thin-pack ofs-delta agent=git/1.0\n00000009done\n" ∧
    (Clone1.buildUploadPackRequest "aaaaaaaaaaaaaaaaaaaaaaaaaaaaaaaaaaaaaaaa" ==
      specUploadPackBody "aaaaaaaaaaaaaaaaaaaaaaaaaaaaaaaaaaaaaaaa"
        "multi_ack_detailed side-band-64k thin-pack ofs-delta agent=git/1.0") = false ∧
    ((Clone1.buildUploadPackRequest
        "aaaaaaaaaaaaaaaaaaaaaaaaaaaaaaaaaaaaaaaa").drop 4).take 4 = "0032" := by
  decide

/-! ## C7 -/

/-- C7: refuted on the code — a per-object header with reserved type code
5 (byte 0x58) or 0 (byte 0x08) is not rejected: part_002's
decodePackHeader maps both to "unknown", the delta dispatch then treats
"unknown" as a regular object and decoding continues; clone.js maps them
to undefined and stores an object whose canonical encoding begins
"undefined ".  All decoder runs return a result instead of failing. -/
theorem c7_reserved_type_not_rejected_bug :
    CloneP2.decodePackHeader c7Pack5 12 = ("unknown", 8, 1) ∧
    CloneP2.decodePackHeader c7Pack0 12 = ("unknown", 8, 1) ∧
    CloneP2.isDeltaType "unknown" = false ∧
    Clone1.unpackPack inflateStored c7Pack5 =
      some [("bb2c44610ac416be789afce5668f0bf0adbad86a",
        strBytes "undefined 8\x00abcdefgh")] ∧
    Clone1.unpackPack inflateStoredP c7Pack5 =
      some [("bb2c44610ac416be789afce5668f0bf0adbad86a",
        strBytes "undefined 8\x00abcdefgh")] ∧
    Clone1.unpackPack inflateStored c7Pack0 =
      some [("bb2c44610ac416be789afce5668f0bf0adbad86a",
        strBytes "undefined 8\x00abcdefgh")] ∧
    CloneP2.unpackPackfile inflateStoredP c7Pack5 =
      some [("cd688017d987b7e537cfd23adda2b701a837f0cb",
        strBytes "unknown 8\x00abcdefgh")] ∧
    CloneP2.unpackPackfile inflateStored c7Pack5 = some [] := by
  decide

/-! ## C8 -/

/-- C8: refuted on the code — the decoder never reads the 20-byte
trailer: a pack whose trailer is 20 zero bytes, which is not the SHA-1 of
the preceding bytes, is decoded and its object set returned under both
zlib-oracle semantics instead of raising a Pack error. -/
theorem c8_trailer_unverified_bug :
    c8Pack = c8PackBody ++ List.replicate 20 0 ∧
    (sha1Bytes c8PackBody == List.replicate 20 0) = false ∧
    Clone1.unpackPack inflateStored c8Pack =
      some [("1656f9233d999f61ef23ef390b9c71d75399f435",
        strBytes "blob 8\x00abcdefgh")] ∧
    Clone1.unpackPack inflateStoredP c8Pack =
      some [("1656f9233d999f61ef23ef390b9c71d75399f435",
        strBytes "blob 8\x00abcdefgh")] := by
  decide

/-! ## C9 -/

/-- C9: refuted on the code — on the spec's synthetic ofs-delta pack the
part_002 decoder never resolves the delta: under exact zlib semantics it
returns an empty object set, under permissive semantics only the base
blob; the reconstructed blob "abcdefghxyz" (whose canonical encoding
hashes to 0f5759c4…) is absent in both runs. -/
theorem c9_ofs_delta_skipped_bug :
    CloneP2.unpackPackfile inflateStored c9Pack = some [] ∧
    CloneP2.unpackPackfile inflateStoredP c9Pack =
      some [("1656f9233d999f61ef23ef390b9c71d75399f435",
        strBytes "blob 8\x00abcdefgh")] ∧
    ((CloneP2.unpackPackfile inflateStoredP c9Pack).getD []).any
      (fun kv => kv.1 == "0f5759c43ed82a069d941cf4052546a0cb368819") = false ∧
    ((CloneP2.unpackPackfile inflateStored c9Pack).getD []).any
      (fun kv => kv.1 == "0f5759c43ed82a069d941cf4052546a0cb368819") = false ∧
    sha1Hex (strBytes "blob 11\x00abcdefghxyz") =
      "0f5759c43ed82a069d941cf4052546a0cb368819" := by
  decide

/-- C4: refuted on the code — CommitTreeCommand interpolates Date.now()
into the author and committer lines, so two runs over the same tree, no
parent and message "init" (here at clock values 0 and 1000) produce
different encodings and different printed SHAs; moreover with no parent
the encoding carries a literal "parent undefined" line, so the epoch-0
no-parent commit of the claim is not expressible at all. -/
theorem c4_commit_tree_nondeterministic_bug :
    (CommitTree.commitEncoding c4Tree none "init" 0 0 ==
      CommitTree.commitEncoding c4Tree none "init" 1000 1000) = false ∧
    (CommitTree.printedSha c4Tree none "init" 0 0 ==
      CommitTree.printedSha c4Tree none "init" 1000 1000) = false ∧
    CommitTree.commitContent c4Tree none "init" 0 0 =
      "tree 4b825dc642cb6eb9a060e54bf8d69288fbee4904\nparent undefined\nauthor Priyanshu Naik <priyanshunaik@Priyanshus-MacBook-Air.local> 0 +0000\ncommitter Priyanshu Naik <priyanshunaik@Priyanshus-MacBook-Air.local> 0 +0000\n\ninit\n" := by
  decide

/-! ## C6: side-band demultiplexing -/

theorem hexByte_not_ws (d : Nat) (h : d ≤ 15) : isWsByte (hexByte d) = false := by
  interval_cases d <;> decide

theorem hexByte_ne_x (d : Nat) (h : d ≤ 15) : hexByte d ≠ 120 ∧ hexByte d ≠ 88 := by
  interval_cases d <;> decide

theorem hexVal?_hexByte (d : Nat) (h : d ≤ 15) : hexVal? (hexByte d) = some d := by
  interval_cases d <;> decide

theorem jsParseIntHex_hex4 {n : Nat} (h : n < 65536) : jsParseIntHex (hex4 n) = some n := by
  have b3 : n / 4096 % 16 ≤ 15 := Nat.le_of_lt_succ (Nat.mod_lt _ (by norm_num))
  have b2 : n / 256 % 16 ≤ 15 := Nat.le_of_lt_succ (Nat.mod_lt _ (by norm_num))
  have b1 : n / 16 % 16 ≤ 15 := Nat.le_of_lt_succ (Nat.mod_lt _ (by norm_num))
  have b0 : n % 16 ≤ 15 := Nat.le_of_lt_succ (Nat.mod_lt _ (by norm_num))
  simp only [jsParseIntHex, hex4, List.dropWhile_cons, hexByte_not_ws _ b3,
    Bool.false_eq_true, if_false, (hexByte_ne_x _ b2).1, (hexByte_ne_x _ b2).2,
    or_self, and_false, if_neg, List.takeWhile_cons, hexVal?_hexByte _ b3,
    hexVal?_hexByte _ b2, hexVal?_hexByte _ b1, hexVal?_hexByte _ b0,
    Option.isSome_some, List.takeWhile_nil, if_true, List.foldl_cons,
    List.foldl_nil, Option.getD_some]
  rw [if_neg (by simp)]
  simp only [Option.some.injEq]
  omega

theorem sbFrameBytes_length (f : SBFrame) :
    (sbFrameBytes f).length = f.data.length + 5 := by
  simp [sbFrameBytes, hex4]

theorem extractGo_sideBand (fs : List SBFrame) :
    ∀ fuel : Nat, (∀ f ∈ fs, f.data.length + 5 ≤ 65535) →
    (sideBandEncode fs).length < fuel →
    CloneP2.extractPackDataGo fuel (sideBandEncode fs) = band1Concat fs := by
  induction fs with
  | nil =>
    intro fuel _ hf
    cases fuel with
    | zero => omega
    | succ F =>
      have hp : jsParseIntHex [48, 48, 48, 48] = some 0 := by decide
      simp [sideBandEncode, band1Concat, CloneP2.extractPackDataGo, hp]
  | cons f t ih =>
    intro fuel hwf hf
    cases fuel with
    | zero => omega
    | succ F =>
      have hn : f.data.length + 5 ≤ 65535 := hwf f (List.mem_cons_self f t)
      have henc : sideBandEncode (f :: t) = sbFrameBytes f ++ sideBandEncode t := rfl
      have hAlen : (sbFrameBytes f).length = f.data.length + 5 := sbFrameBytes_length f
      rw [henc] at hf ⊢
      have hlen4 : 4 ≤ (sbFrameBytes f ++ sideBandEncode t).length := by
        rw [List.length_append, hAlen]; omega
      have htake4 : (sbFrameBytes f ++ sideBandEncode t).take 4 =
          hex4 (f.data.length + 5) := by
        have hsplit : sbFrameBytes f ++ sideBandEncode t =
            hex4 (f.data.length + 5) ++ (f.band :: f.data ++ sideBandEncode t) := by
          simp [sbFrameBytes]
        rw [hsplit, List.take_left' (by simp [hex4])]
      have hparse : jsParseIntHex ((sbFrameBytes f ++ sideBandEncode t).take 4) =
          some (f.data.length + 5) := by
        rw [htake4]; exact jsParseIntHex_hex4 (by omega)
      have hband : (sbFrameBytes f ++ sideBandEncode t).getD 4 0 = f.band := by
        have hsplit : sbFrameBytes f ++ sideBandEncode t =
            hex4 (f.data.length + 5) ++ (f.band :: (f.data ++ sideBandEncode t)) := by
          simp [sbFrameBytes]
        rw [hsplit, List.getD_append_right _ _ _ _ (by simp [hex4])]
        simp [hex4]
      have htakeN : (sbFrameBytes f ++ sideBandEncode t).take (f.data.length + 5) =
          sbFrameBytes f := List.take_left' hAlen
      have hdata : (sbFrameBytes f).drop 5 = f.data := by
        have hsplit : sbFrameBytes f = (hex4 (f.data.length + 5) ++ [f.band]) ++ f.data := by
          simp [sbFrameBytes]
        rw [hsplit, List.drop_left' (by simp [hex4])]
      have hdropN : (sbFrameBytes f ++ sideBandEncode t).drop (f.data.length + 5) =
          sideBandEncode t := List.drop_left' hAlen
      simp only [CloneP2.extractPackDataGo, hlen4, if_true, hparse]
      have hsucc : f.data.length + 5 = (f.data.length + 4) + 1 := rfl
      rw [hsucc]
      simp only [hband, ← hsucc, htakeN, hdata, hdropN]
      have hrec : CloneP2.extractPackDataGo F (sideBandEncode t) = band1Concat t := by
        apply ih F (fun g hg => hwf g (List.mem_cons_of_mem f hg))
        have := List.length_append (sbFrameBytes f) (sideBandEncode t)
        omega
      rw [hrec]
      rfl

/-- C6 counterexample frames: a band-3 error frame followed by a band-1
data frame. -/
def c6Frames : List SBFrame := [⟨3, strBytes "err"⟩, ⟨1, strBytes "PA"⟩]

/-- C6 counterexample: on a stream containing a band-3 payload the
demultiplexer does not fail — it returns the band-1 concatenation and
silently discards the band-3 payload, refuting "fails with an error
whenever a band-3 payload occurs". -/
theorem c6_band3_not_error_counterexample :
    CloneP2.extractPackData (sideBandEncode c6Frames) = strBytes "PA" := by
  decide

/-- C6 (amended): for every well-formed side-band stream, the
demultiplexer returns the concatenation of all band-1 payloads in their
original order and silently discards band-2 and band-3 payloads alike; a
band-3 payload never causes an error. -/
theorem c6_sideband_demux_amended (fs : List SBFrame)
    (h : ∀ f ∈ fs, f.data.length + 5 ≤ 65535) :
    CloneP2.extractPackData (sideBandEncode fs) = band1Concat fs :=
  extractGo_sideBand fs _ h (Nat.lt_succ_self _)

/-- C6 witness: the amended theorem at a concrete three-band stream. -/
theorem c6_sideband_demux_amended_witness :
    (∀ f ∈ [(⟨3, strBytes "err"⟩ : SBFrame), ⟨2, strBytes "prog"⟩, ⟨1, strBytes "PACK"⟩],
      f.data.length + 5 ≤ 65535) ∧
    CloneP2.extractPackData (sideBandEncode
      [⟨3, strBytes "err"⟩, ⟨2, strBytes "prog"⟩, ⟨1, strBytes "PACK"⟩]) =
      band1Concat [⟨3, strBytes "err"⟩, ⟨2, strBytes "prog"⟩, ⟨1, strBytes "PACK"⟩] :=
  ⟨by decide, c6_sideband_demux_amended _ (by decide)⟩

/-! ## C10: the probing loops try only strict slices -/

theorem getD_take_lt (l : List Nat) (i k : Nat) (h : k < i) :
    (l.take i).getD k 0 = l.getD k 0 := by
  induction l generalizing i k with
  | nil => simp
  | cons x t ih =>
    cases i with
    | zero => omega
    | succ i =>
      cases k with
      | zero => simp
      | succ k => simpa using ih i k (by omega)

theorem inflateStored_ok_length {l p : List Nat}
    (h : inflateStored l = .ok p) : l.length = 11 + zlibLEN l := by
  unfold inflateStored at h
  split_ifs at h with h1 h2 h3 h4 h5 h6 h7 h8 h9
  omega

theorem inflateStoredP_ok_length {l p : List Nat}
    (h : inflateStoredP l = .ok p) : 11 + zlibLEN l ≤ l.length := by
  unfold inflateStoredP at h
  split_ifs at h with h1 h2 h3 h4 h5 h6 h7 h8
  omega

theorem zlibLEN_take {l : List Nat} {j : Nat} (h : 5 ≤ j) :
    zlibLEN (l.take j) = zlibLEN l := by
  unfold zlibLEN
  rw [getD_take_lt _ _ _ (by omega), getD_take_lt _ _ _ (by omega)]

theorem take_not_ok_exact {l p : List Nat} (h : inflateStored l = .ok p)
    {j : Nat} (hj : j < l.length) : (inflateStored (l.take j)).isOk = false := by
  have hl := inflateStored_ok_length h
  cases hq : inflateStored (l.take j) with
  | ok q =>
    exfalso
    have hlen := inflateStored_ok_length hq
    have hjlen : (l.take j).length = j := by
      rw [List.length_take]; omega
    by_cases h5 : 5 ≤ j
    · rw [zlibLEN_take h5] at hlen; omega
    · omega
  | moreInput => rfl
  | badData => rfl

theorem take_not_ok_perm {l p : List Nat} (h : inflateStored l = .ok p)
    {j : Nat} (hj : j < l.length) : (inflateStoredP (l.take j)).isOk = false := by
  have hl := inflateStored_ok_length h
  cases hq : inflateStoredP (l.take j) with
  | ok q =>
    exfalso
    have hlen := inflateStoredP_ok_length hq
    have hjlen : (l.take j).length = j := by
      rw [List.length_take]; omega
    by_cases h5 : 5 ≤ j
    · rw [zlibLEN_take h5] at hlen; omega
    · omega
  | moreInput => rfl
  | badData => rfl

theorem readAndInflateGo_none (inf : List Nat → InfResult) (slice : List Nat)
    (h : ∀ j, j < slice.length → (inf (slice.take j)).isOk = false) :
    ∀ fuel i, readAndInflateGo inf slice fuel i = none := by
  intro fuel
  induction fuel with
  | zero => intro i; rfl
  | succ F ih =>
    intro i
    by_cases hi : i < slice.length
    · have hne := h i hi
      cases hq : inf (slice.take i) with
      | ok out => rw [hq] at hne; simp [InfResult.isOk] at hne
      | moreInput => simp only [readAndInflateGo, hi, if_true, hq]; exact ih (i + 1)
      | badData => simp only [readAndInflateGo, hi, if_true, hq]; exact ih (i + 1)
    · simp only [readAndInflateGo, hi, if_false]

theorem readInflatedObjectGo_none (inf : List Nat → InfResult) (slice : List Nat)
    (h : ∀ j, j < slice.length → (inf (slice.take j)).isOk = false) :
    ∀ fuel i, readInflatedObjectGo inf slice fuel i = none := by
  intro fuel
  induction fuel with
  | zero => intro i; rfl
  | succ F ih =>
    intro i
    by_cases hi : i < slice.length
    · have hne := h i hi
      cases hq : inf (slice.take i) with
      | ok out => rw [hq] at hne; simp [InfResult.isOk] at hne
      | moreInput => simp only [readInflatedObjectGo, hi, if_true, hq]; exact ih (i + 1)
      | badData => simp only [readInflatedObjectGo, hi, if_true, hq]
    · simp only [readInflatedObjectGo, hi, if_false]

/-- C10: confirmed — for every buffer that consists of exactly one
well-formed zlib stream with no bytes following it, the probing loops of
readAndInflate (and readInflatedObject) try only strict slices
(i < buffer.length), every such slice is a truncation of the stream and
fails to inflate, so the function throws its inflate-failure error
instead of returning the decompressed bytes and a consumed count; this
holds under both trailing-byte semantics of inflateSync. -/
theorem c10_exact_stream_probing_throws (buf : List Nat)
    (h : isCompleteZlibStored buf = true) :
    readAndInflate inflateStored buf = none ∧
    readAndInflate inflateStoredP buf = none ∧
    readInflatedObject inflateStored buf = none ∧
    readInflatedObject inflateStoredP buf = none := by
  obtain ⟨p, hp⟩ : ∃ p, inflateStored buf = .ok p := by
    unfold isCompleteZlibStored at h
    cases hq : inflateStored buf with
    | ok q => exact ⟨q, rfl⟩
    | moreInput => rw [hq] at h; simp [InfResult.isOk] at h
    | badData => rw [hq] at h; simp [InfResult.isOk] at h
  exact ⟨readAndInflateGo_none _ _ (fun j hj => take_not_ok_exact hp hj) _ _,
         readAndInflateGo_none _ _ (fun j hj => take_not_ok_perm hp hj) _ _,
         readInflatedObjectGo_none _ _ (fun j hj => take_not_ok_exact hp hj) _ _,
         readInflatedObjectGo_none _ _ (fun j hj => take_not_ok_perm hp hj) _ _⟩

/-- The complete zlib stream (stored block) of the two bytes "hi". -/
def hiStream : List Nat := [120, 1, 1, 2, 0, 253, 255, 104, 105, 1, 59, 0, 210]

/-- C10 witness: the theorem at the concrete complete stream of "hi". -/
theorem c10_exact_stream_probing_throws_witness :
    isCompleteZlibStored hiStream = true ∧
    (readAndInflate inflateStored hiStream = none ∧
     readAndInflate inflateStoredP hiStream = none ∧
     readInflatedObject inflateStored hiStream = none ∧
     readInflatedObject inflateStoredP hiStream = none) :=
  ⟨by decide, c10_exact_stream_probing_throws hiStream (by decide)⟩
